import Mathlib

/-!
Verification of the outbound delivery pipeline of the RSS republishing
console (queue processor, media chunker, target resolver, delivery client,
channel manager).  Every definition below is a shallow embedding of a
function or code block of the repository; the file name of the embedded
code is given in each doc comment.  Machine behaviour that is external to
the program (the network) is abstracted by an oracle `ok : Nat → Bool`
telling, per issued request, whether the call succeeded.
-/

/-- Delivery platform (`"telegram" | "bale"` in `types.ts`). -/
inductive Platform where
  | telegram
  | bale
deriving DecidableEq, Repr

/-- Media kind (`"photo" | "video"` in `types.ts`, field `type`). -/
inductive MediaKind where
  | photo
  | video
deriving DecidableEq, Repr

/-- One media element of a queue item (`{url, type}` in `index.tsx`). -/
structure MediaItem where
  url : String
  kind : MediaKind
deriving DecidableEq, Repr

/-- Queue item status (`types.ts`). -/
inductive Status where
  | pending
  | processing
  | completed
  | failed
deriving DecidableEq, Repr

/-- Log level (`types.ts`). -/
inductive LogLevel where
  | INFO
  | SUCCESS
  | WARN
  | ERROR
deriving DecidableEq, Repr

/-- A log entry as emitted during processing.  The source also stamps an id
and a timestamp and keeps only the 50 most recent entries; the claims only
look at the level and message of entries emitted by one processing run, so
the embedding records the emitted entries in order. -/
structure LogEntry where
  level : LogLevel
  message : String
deriving DecidableEq, Repr

/-- A resolved delivery target (`QueueTarget` in `index.tsx`). -/
structure QueueTarget where
  platform : Platform
  chatId : String
  token : Option String
deriving DecidableEq, Repr

/-- A queue item (`QueueItem` in `index.tsx`). -/
structure QueueItem where
  id : String
  title : String
  source : String
  addedAt : String
  status : Status
  mediaUrls : List MediaItem
  targets : List QueueTarget
  retryCount : Nat
deriving DecidableEq, Repr

/-- Structure `AdvancedSettings` of `index.tsx`. -/
structure AdvancedSettings where
  postDelay : Nat
  chunkDelay : Nat
  maxRetries : Nat
  ttl : Nat
  rssFetchInterval : Nat
deriving DecidableEq, Repr

/-- The settings fields of `index.tsx` read by its queue processor. -/
structure SettingsIdx where
  sleepMode : Bool
  telegramBotToken : String
  baleBotToken : String
  corsProxy : String
  advanced : AdvancedSettings
deriving DecidableEq, Repr

/-- JavaScript `a || b` on an optional string: an absent or empty string
falls back to the default. -/
def jsOrStr (o : Option String) (dflt : String) : String :=
  match o with
  | some t => if t = "" then dflt else t
  | none => dflt

/-- Bot-API base url per platform
(`index.tsx`: `isTelegram ? https://api.telegram.org/bot... : https://tapi.bale.ai/bot...`). -/
def baseUrl (p : Platform) (token : String) : String :=
  match p with
  | Platform.telegram => "https://api.telegram.org/bot" ++ token
  | Platform.bale => "https://tapi.bale.ai/bot" ++ token

/-! ## Media chunker of `index.tsx`

```
const chunks = [];
for (let i = 0; i < media.length && chunks.length < 3; i += 10) {
    chunks.push(media.slice(i, i + 10));
}
```
-/

/-- Loop body of the chunker: `i` is the slice start and `rem` the number
of chunks that may still be pushed (`3 - chunks.length`); the loop stops
when the media range or the chunk budget is exhausted. -/
def chunkGo (media : List MediaItem) (i : Nat) : Nat → List (List MediaItem)
  | 0 => []
  | rem + 1 =>
    if i < media.length then
      ((media.drop i).take 10) :: chunkGo media (i + 10) rem
    else
      []

/-- The chunk list built by the queue processor of `index.tsx`: the loop
starts at `i = 0` with an empty chunk list, i.e. budget 3. -/
def mediaChunks (media : List MediaItem) : List (List MediaItem) :=
  chunkGo media 0 3

theorem chunkGo_length (media : List MediaItem) :
    ∀ (rem i : Nat),
      (chunkGo media i rem).length = min ((media.length - i + 9) / 10) rem := by
  intro rem
  induction rem with
  | zero => intro i; simp [chunkGo]
  | succ rem ih =>
    intro i
    rw [chunkGo]
    by_cases h : i < media.length
    · rw [if_pos h]
      simp only [List.length_cons, ih (i + 10)]
      omega
    · rw [if_neg h]
      simp only [List.length_nil]
      omega

theorem chunkGo_getD (media : List MediaItem) :
    ∀ (rem i k : Nat), k < (chunkGo media i rem).length →
      (chunkGo media i rem).getD k [] = (media.drop (i + 10 * k)).take 10 := by
  intro rem
  induction rem with
  | zero => intro i k hk; simp [chunkGo] at hk
  | succ rem ih =>
    intro i k hk
    rw [chunkGo] at hk ⊢
    by_cases h : i < media.length
    · rw [if_pos h] at hk ⊢
      cases k with
      | zero => simp
      | succ k =>
        simp only [List.length_cons, Nat.succ_lt_succ_iff] at hk
        simp only [List.getD_cons_succ]
        rw [ih (i + 10) k hk]
        have harith : i + 10 + 10 * k = i + 10 * (k + 1) := by omega
        rw [harith]
    · rw [if_neg h] at hk
      simp at hk

theorem chunkGo_flatten (media : List MediaItem) :
    ∀ (rem i : Nat),
      (chunkGo media i rem).flatten = (media.drop i).take (10 * rem) := by
  intro rem
  induction rem with
  | zero => intro i; simp [chunkGo]
  | succ rem ih =>
    intro i
    rw [chunkGo]
    by_cases h : i < media.length
    · rw [if_pos h]
      simp only [List.flatten_cons, ih (i + 10)]
      rw [show media.drop (i + 10) = (media.drop i).drop 10 by
            rw [List.drop_drop, Nat.add_comm]]
      rw [show 10 * (rem + 1) = 10 + 10 * rem by omega]
      rw [List.take_add]
    · rw [if_neg h]
      have : media.drop i = [] := by
        apply List.drop_eq_nil_of_le
        omega
      simp [this]

/-! ## Delivery model of the queue processor of `index.tsx`

The per-target loop of `processQueue` (`index.tsx`).  Every chunk is sent
as one `sendMediaGroup` call whose `media` form field is a JSON array; the
array entry for chunk `i`, item `idx` carries a `caption` field exactly
when `idx === 0 && i === 0`.
-/

/-- JavaScript `url.startsWith('data:')` — embedded over the character
list so that concrete runs are kernel-computable. -/
def startsWithData (u : String) : Bool :=
  decide (u.data.take 5 = "data:".data)

/-- File extension chosen for a locally attached (data-URI) medium
(`index.tsx`: `m.type === 'video' ? 'mp4' : 'jpg'`). -/
def mediaExt : MediaKind → String
  | MediaKind.video => "mp4"
  | MediaKind.photo => "jpg"

/-- One entry of the `media` JSON array of a `sendMediaGroup` call
(`index.tsx`: `mediaObj`).  `caption = none` means the entry carries no
caption field at all. -/
structure MediaEntry where
  kind : MediaKind
  media : String
  caption : Option String
deriving DecidableEq, Repr

/-- The entry built for item `m` at position `idx` of chunk `i`
(`index.tsx` lines 859-875). -/
def buildEntry (title : String) (i idx : Nat) (m : MediaItem) : MediaEntry :=
  { kind := m.kind
    media :=
      if startsWithData m.url then
        "attach://file_" ++ toString i ++ "_" ++ toString idx ++ "." ++ mediaExt m.kind
      else
        m.url
    caption := if idx = 0 ∧ i = 0 then some title else none }

/-- Loop `chunk.map((m, idx) => ...)` starting at position `idx`. -/
def buildEntriesFrom (title : String) (i idx : Nat) : List MediaItem → List MediaEntry
  | [] => []
  | m :: ms => buildEntry title i idx m :: buildEntriesFrom title i (idx + 1) ms

/-- The `media` JSON array built for chunk `i` (`index.tsx`). -/
def buildMediaArray (title : String) (i : Nat) (chunk : List MediaItem) : List MediaEntry :=
  buildEntriesFrom title i 0 chunk

/-- The media arrays of all chunks starting at chunk index `i`. -/
def chunkArraysFrom (title : String) (i : Nat) : List (List MediaItem) → List (List MediaEntry)
  | [] => []
  | c :: cs => buildMediaArray title i c :: chunkArraysFrom title (i + 1) cs

/-- All media arrays a target receives, in chunk order (`index.tsx`:
the body of `for (let i = 0; i < chunks.length; i++)`). -/
def targetMediaArrays (title : String) (chunks : List (List MediaItem)) :
    List (List MediaEntry) :=
  chunkArraysFrom title 0 chunks

/-- Observable side effects of one processing run: network requests and
inter-chunk waits, in order. -/
inductive Event where
  | request (url : String) (chatId : String) (media : List MediaEntry)
  | chunkWait (ms : Nat)
deriving DecidableEq, Repr

/-- Accumulated side effects of a run: events, emitted log entries, and the
number of requests issued so far (consulted by the success oracle). -/
structure RunAcc where
  events : List Event
  logs : List LogEntry
  reqCount : Nat
deriving DecidableEq, Repr

/-- The chunk loop for one target (`index.tsx` lines 854-894): one
`sendMediaGroup` request per chunk; a thrown error (failed fetch or non-ok
response, decided by the oracle) aborts with the effects so far; a
`chunkDelay` wait separates consecutive chunks (`i < chunks.length - 1`). -/
def sendChunks (ok : Nat → Bool) (chunkDelay : Nat) (reqUrl chatId title : String)
    (total : Nat) : Nat → List (List MediaItem) → RunAcc → Except (RunAcc × String) RunAcc
  | _, [], acc => Except.ok acc
  | i, c :: rest, acc =>
    let acc1 : RunAcc :=
      { acc with
        events := acc.events ++ [Event.request reqUrl chatId (buildMediaArray title i c)]
        reqCount := acc.reqCount + 1 }
    if ok acc.reqCount then
      let acc2 : RunAcc :=
        if i < total - 1 then
          { acc1 with events := acc1.events ++ [Event.chunkWait chunkDelay] }
        else acc1
      sendChunks ok chunkDelay reqUrl chatId title total (i + 1) rest acc2
    else
      Except.error (acc1, "request failed")

/-- Display name of a platform, as interpolated into log messages. -/
def platName : Platform → String
  | Platform.telegram => "telegram"
  | Platform.bale => "bale"

/-- The target loop of `processQueue` (`index.tsx` lines 843-895): resolve
the credential (target override, else the platform's global token), skip
the target with a WARN when token or chat id is missing, otherwise run the
chunk loop; the first failure propagates. -/
def runTargets (ok : Nat → Bool) (s : SettingsIdx) (title : String)
    (chunks : List (List MediaItem)) : List QueueTarget → RunAcc → Except (RunAcc × String) RunAcc
  | [], acc => Except.ok acc
  | t :: ts, acc =>
    let isTelegram := t.platform = Platform.telegram
    let botToken := jsOrStr t.token (if isTelegram then s.telegramBotToken else s.baleBotToken)
    if botToken = "" ∨ t.chatId = "" then
      let acc1 : RunAcc :=
        { acc with
          logs := acc.logs ++
            [⟨LogLevel.WARN, "Skipping " ++ platName t.platform ++ " target: Missing Token or ChatID"⟩] }
      runTargets ok s title chunks ts acc1
    else
      match sendChunks ok s.advanced.chunkDelay
          (s.corsProxy ++ baseUrl t.platform botToken ++ "/sendMediaGroup")
          t.chatId title chunks.length 0 chunks acc with
      | Except.ok acc1 => runTargets ok s title chunks ts acc1
      | Except.error e => Except.error e

/-- Function `updateQueueStatus` of `index.tsx` (lines 820-822). -/
def updateQueueStatus (queue : List QueueItem) (id : String) (st : Status) :
    List QueueItem :=
  queue.map (fun q => if q.id = id then { q with status := st } else q)

/-- Result of one `processQueue` invocation of `index.tsx`: the updated
queue, the log entries emitted in order, and the side-effect events. -/
structure TickResult where
  queue : List QueueItem
  logs : List LogEntry
  events : List Event
deriving DecidableEq, Repr

/-- One invocation of `processQueue` of `index.tsx` (lines 826-906): pick
the first pending item, mark it processing, chunk its media once, run the
target loop, and mark the item completed or failed. -/
def processQueueIndex (ok : Nat → Bool) (s : SettingsIdx) (queue : List QueueItem) :
    TickResult :=
  match queue.find? (fun item => item.status = Status.pending) with
  | none => ⟨queue, [], []⟩
  | some pendingItem =>
    let q1 := updateQueueStatus queue pendingItem.id Status.processing
    let log0 : LogEntry :=
      ⟨LogLevel.INFO, "Processing item for " ++ toString pendingItem.targets.length ++ " targets..."⟩
    let chunks := mediaChunks pendingItem.mediaUrls
    match runTargets ok s pendingItem.title chunks pendingItem.targets ⟨[], [], 0⟩ with
    | Except.ok acc =>
      ⟨updateQueueStatus q1 pendingItem.id Status.completed,
       log0 :: acc.logs ++ [⟨LogLevel.SUCCESS, "Item processed successfully."⟩],
       acc.events⟩
    | Except.error (acc, msg) =>
      ⟨updateQueueStatus q1 pendingItem.id Status.failed,
       log0 :: acc.logs ++ [⟨LogLevel.ERROR, msg⟩],
       acc.events⟩

/-! ## Target resolver of `index.tsx` (`simulateFetch`, lines 479-507) -/

/-- Content kind classified by the producer. -/
inductive ContentKind where
  | image
  | video
  | text
deriving DecidableEq, Repr

/-- Structure `FeedRouting` of `types.ts`: ordered channel-id lists per content kind. -/
structure FeedRouting where
  general : List String
  images : List String
  videos : List String
deriving DecidableEq, Repr

/-- Structure `Channel` of `types.ts`. -/
structure Channel where
  id : String
  name : String
  platform : Platform
  chatId : String
  token : Option String
  captionTemplate : Option String
deriving DecidableEq, Repr

/-- The `QueueTarget` snapshotted from a channel (`index.tsx` lines 496-500). -/
def snapshotTarget (c : Channel) : QueueTarget :=
  { platform := c.platform, chatId := c.chatId, token := c.token }

/-- Resolution of a channel-id list against the live channel set
(`index.tsx` lines 491-502): ids with no matching channel are dropped. -/
def resolveIds (ids : List String) (channels : List Channel) : List QueueTarget :=
  ids.filterMap (fun cid => (channels.find? (fun c => c.id = cid)).map snapshotTarget)

/-- Target resolution of `simulateFetch` (`index.tsx` lines 479-502):
kind-specific routing list first, falling back to `routing.general` when
that list is empty or the kind is text. -/
def resolveTargets (kind : ContentKind) (routing : FeedRouting)
    (channels : List Channel) : List QueueTarget :=
  let ids0 :=
    match kind with
    | ContentKind.image => routing.images
    | ContentKind.video => routing.videos
    | ContentKind.text => []
  let ids := if ids0.length = 0 then routing.general else ids0
  resolveIds ids channels

/-! ## The queue processor snapshot of `src/unnamed/part_000`

This snapshot (a single-file build of the app) keeps a module-local
`isProcessing` flag as single-flight guard, checks `sleepMode` before
dequeuing, and delivers per platform (`telegram`, `bale`) using the global
credentials from settings.  Its media list is a plain list of url strings.
-/

/-- Structure `QueueItem` of `src/unnamed/part_000`. -/
structure Item000 where
  id : String
  title : String
  source : String
  addedAt : String
  status : Status
  mediaUrls : List String
  platforms : List Platform
  retryCount : Nat
deriving DecidableEq, Repr

/-- The settings fields of `src/unnamed/part_000` read by its processor. -/
structure Settings000 where
  sleepMode : Bool
  telegramBotToken : String
  telegramChatId : String
  baleBotToken : String
  baleChatId : String
  corsProxy : String
deriving DecidableEq, Repr

/-- Chunk loop of `src/unnamed/part_000` (lines 799-805):
`for (let i = 0; i < totalToSend; i += 10) mediaChunks.push(mediaList.slice(i, i + 10))`. -/
def chunkGo000 (media : List String) (total : Nat) : Nat → Nat → List (List String)
  | _, 0 => []
  | i, fuel + 1 =>
    if i < total then
      ((media.drop i).take 10) :: chunkGo000 media total (i + 10) fuel
    else
      []

/-- Function `mediaChunks` of `src/unnamed/part_000`: at most the first
`min(mediaList.length, 30)` items, in batches of 10.  The loop advances `i`
by 10 per iteration, so `total + 1` iterations always suffice; the last
argument is that structural bound. -/
def mediaChunks000 (media : List String) : List (List String) :=
  if media.length > 0 then
    chunkGo000 media (min media.length 30) 0 (min media.length 30 + 1)
  else
    []

/-- One entry of the `media` JSON array in the group branch of
`src/unnamed/part_000` (lines 848-856): the `caption` field is always
present, the title on chunk 0 item 0 and `""` everywhere else. -/
structure Entry000 where
  media : String
  caption : String
deriving DecidableEq, Repr

/-- One Bot-API call issued by `src/unnamed/part_000`:
`sendMessage` (text), `sendPhoto` (single item) or `sendMediaGroup`. -/
inductive Call000 where
  | message (chatId text : String)
  | photo (chatId mediaField caption : String)
  | group (chatId : String) (entries : List Entry000)
deriving DecidableEq, Repr

/-- Side effects of a `src/unnamed/part_000` run: calls and waits in order. -/
inductive Ev000 where
  | call (p : Platform) (c : Call000)
  | wait (ms : Nat)
deriving DecidableEq, Repr

/-- Group entries of chunk `i` starting at item position `idx`
(`src/unnamed/part_000` lines 848-856).  A data URI becomes an
`attach://file{idx}` reference (the blob itself is attached separately). -/
def entries000From (title : String) (i idx : Nat) : List String → List Entry000
  | [] => []
  | m :: ms =>
    { media := if startsWithData m then "attach://file" ++ toString idx else m
      caption := if i = 0 ∧ idx = 0 then title else "" }
      :: entries000From title i (idx + 1) ms

/-- The `photo` form field of the single-item branch
(`src/unnamed/part_000` lines 839-844): a data URI is attached as a blob
named `image.jpg`, a remote url is passed through. -/
def singleField000 (m : String) : String :=
  if startsWithData m then "image.jpg" else m

/-- The call built for chunk `i` (`src/unnamed/part_000` lines 829-865):
a one-item chunk becomes `sendPhoto` with the caption appended
unconditionally; a longer chunk becomes `sendMediaGroup`. -/
def chunkCall000 (title chatId : String) (i : Nat) (chunk : List String) : Call000 :=
  if chunk.length = 1 then
    Call000.photo chatId (singleField000 (chunk.headD "")) title
  else
    Call000.group chatId (entries000From title i 0 chunk)

/-- The per-platform chunk loop (`src/unnamed/part_000` lines 827-871):
wait 3500 ms before every chunk but the first, issue the chunk's call, and
abort on the first non-ok response. -/
def chunkLoop000 (ok : Nat → Bool) (p : Platform) (chatId title : String) :
    Nat → List (List String) → List Ev000 → Nat → Except (List Ev000) (List Ev000 × Nat)
  | _, [], evs, cnt => Except.ok (evs, cnt)
  | i, c :: rest, evs, cnt =>
    let evs1 := if i > 0 then evs ++ [Ev000.wait 3500] else evs
    let evs2 := evs1 ++ [Ev000.call p (chunkCall000 title chatId i c)]
    if ok cnt then
      chunkLoop000 ok p chatId title (i + 1) rest evs2 (cnt + 1)
    else
      Except.error evs2

/-- One platform branch of `src/unnamed/part_000` (lines 808-879 for
telegram, 883-947 for bale): entered only when the item lists the platform
and the global token is set; with no chunks a single `sendMessage` carries
the title, otherwise the chunk loop runs. -/
def platformRun000 (ok : Nat → Bool) (p : Platform) (enabled : Bool)
    (token chatId title : String) (chunks : List (List String))
    (evs : List Ev000) (cnt : Nat) : Except (List Ev000) (List Ev000 × Nat) :=
  if enabled ∧ token ≠ "" then
    if chunks.isEmpty then
      let evs1 := evs ++ [Ev000.call p (Call000.message chatId title)]
      if ok cnt then Except.ok (evs1, cnt + 1) else Except.error evs1
    else
      chunkLoop000 ok p chatId title 0 chunks evs cnt
  else
    Except.ok (evs, cnt)

/-- The processing body of `src/unnamed/part_000` (lines 787-959) for one
item: telegram branch, then bale branch; any failure marks the item
failed, full success marks it completed. -/
def deliver000 (ok : Nat → Bool) (s : Settings000) (it : Item000) :
    Status × List Ev000 :=
  let chunks := mediaChunks000 it.mediaUrls
  match platformRun000 ok Platform.telegram (it.platforms.contains Platform.telegram)
      s.telegramBotToken s.telegramChatId it.title chunks [] 0 with
  | Except.error evs => (Status.failed, evs)
  | Except.ok (evs1, cnt1) =>
    match platformRun000 ok Platform.bale (it.platforms.contains Platform.bale)
        s.baleBotToken s.baleChatId it.title chunks evs1 cnt1 with
    | Except.error evs => (Status.failed, evs)
    | Except.ok (evs2, _) => (Status.completed, evs2)

/-- The platform's chat id from settings (`src/unnamed/part_000`). -/
def chatFor000 (s : Settings000) : Platform → String
  | Platform.telegram => s.telegramChatId
  | Platform.bale => s.baleChatId

/-- The platform's global token from settings (`src/unnamed/part_000`). -/
def tokenFor000 (s : Settings000) : Platform → String
  | Platform.telegram => s.telegramBotToken
  | Platform.bale => s.baleBotToken

/-- The platforms a `src/unnamed/part_000` item is actually sent to, in the
order the code tries them: listed on the item and with a configured global
token. -/
def enabledPlatforms000 (s : Settings000) (it : Item000) : List Platform :=
  [Platform.telegram, Platform.bale].filter
    (fun p => it.platforms.contains p ∧ tokenFor000 s p ≠ "")

/-! ## Scheduler of `src/unnamed/part_000` (lines 770-964)

The tick is driven by `setInterval(processQueue, 1000)`.  A tick that finds
`isProcessing` set returns at once; otherwise it takes the first pending
item, returns if there is none or if `sleepMode` is on, and else sets the
flag and marks the item `processing`.  The asynchronous remainder of the
tick eventually marks the same item `completed` or `failed` and clears the
flag (`finally`).  The state machine below has one step per atomic phase:
`tickStart` is the synchronous prefix of a tick, `tickFinish` the
conclusion of the in-flight item.
-/

/-- Scheduler state: the queue, the sleep gate, and the single-flight flag
(`isProcessing`), recorded together with the id of the in-flight item. -/
structure ProcState where
  queue : List Item000
  sleepMode : Bool
  inFlight : Option String
deriving DecidableEq, Repr

/-- Lookup `queue.find(q => q.status === 'pending')`. -/
def findPending (queue : List Item000) : Option Item000 :=
  queue.find? (fun q => q.status = Status.pending)

/-- Update `setQueue(prev => prev.map(q => q.id === id ? {...q, status} : q))`. -/
def setStatus000 (queue : List Item000) (id : String) (st : Status) : List Item000 :=
  queue.map (fun q => if q.id = id then { q with status := st } else q)

/-- The synchronous prefix of `processQueue` (`src/unnamed/part_000` lines
773-785): single-flight guard, pending lookup, sleep gate, then the
transition to `processing`. -/
def tickStart (s : ProcState) : ProcState :=
  if s.inFlight.isSome then s
  else
    match findPending s.queue with
    | none => s
    | some it =>
      if s.sleepMode then s
      else
        { s with queue := setStatus000 s.queue it.id Status.processing
                 inFlight := some it.id }

/-- The conclusion of the in-flight item (`src/unnamed/part_000` lines
949-959): mark it `completed` or `failed` and clear the flag. -/
def tickFinish (s : ProcState) (success : Bool) : ProcState :=
  match s.inFlight with
  | none => s
  | some id =>
    { s with queue := setStatus000 s.queue id (if success then Status.completed else Status.failed)
             inFlight := none }

/-- Atomic phases of the scheduler. -/
inductive SchedStep where
  | tick
  | finish (success : Bool)
deriving DecidableEq, Repr

/-- Apply one phase. -/
def schedApply (s : ProcState) : SchedStep → ProcState
  | SchedStep.tick => tickStart s
  | SchedStep.finish b => tickFinish s b

/-- Run a list of phases in order. -/
def schedRun (s : ProcState) : List SchedStep → ProcState
  | [] => s
  | st :: rest => schedRun (schedApply s st) rest

/-- Number of items currently in status `processing`. -/
def processingCount (queue : List Item000) : Nat :=
  (queue.filter (fun q => q.status = Status.processing)).length

/-- Scheduler invariant: queue ids are distinct (the app allocates a fresh
id per enqueue), and every `processing` item is the one the single-flight
flag records. -/
def SchedInv (s : ProcState) : Prop :=
  (s.queue.map (fun q => q.id)).Nodup ∧
    ∀ q ∈ s.queue, q.status = Status.processing → s.inFlight = some q.id

instance (s : ProcState) : Decidable (SchedInv s) := by
  unfold SchedInv
  infer_instance

/-! ## Channel manager of `src/unnamed/part_006` (`ChannelManager`)

`handleAdd` stores a fixed default caption template on every newly added
channel, and the inline caption editor falls back to the same literal when
a channel stores none.  (The template literal contains `\x7b\x7btitle\x7d\x7d`
and `\x7b\x7blink\x7d\x7d` placeholders; braces are written with escapes.)
-/

/-- The `newChannel` form state of `ChannelManager`. -/
structure NewChannelForm where
  name : String
  platform : Platform
  chatId : String
  token : Option String
deriving DecidableEq, Repr

/-- Function `handleAdd` of `ChannelManager` (`src/unnamed/part_006` lines 103-109):
a channel is appended only when name and chat id are nonempty, and its
caption template is initialised to the default literal. -/
def handleAdd (channels : List Channel) (nc : NewChannelForm) (newId : String) :
    List Channel :=
  if nc.name ≠ "" ∧ nc.chatId ≠ "" then
    channels ++
      [{ id := newId, name := nc.name, platform := nc.platform, chatId := nc.chatId,
         token := nc.token,
         captionTemplate := some "\x7b\x7btitle\x7d\x7d\n\n\x7b\x7blink\x7d\x7d" }]
  else
    channels

/-- The template shown and edited for a channel
(`src/unnamed/part_006` line 183: `ch.captionTemplate || '...'`). -/
def editorTemplate (ch : Channel) : String :=
  jsOrStr ch.captionTemplate "\x7b\x7btitle\x7d\x7d\n\n\x7b\x7blink\x7d\x7d"

/-! ## Scheduler invariant lemmas -/

theorem setStatus000_map_id (queue : List Item000) (id : String) (st : Status) :
    (setStatus000 queue id st).map (fun q => q.id) = queue.map (fun q => q.id) := by
  unfold setStatus000
  rw [List.map_map]
  apply List.map_congr_left
  intro q _
  by_cases h : q.id = id <;> simp [h]

theorem processingCount_zero (queue : List Item000)
    (h : ∀ q ∈ queue, q.status ≠ Status.processing) :
    processingCount queue = 0 := by
  unfold processingCount
  rw [List.filter_eq_nil_iff.mpr]
  · rfl
  · intro q hq
    simp only [decide_eq_true_eq]
    exact h q hq

theorem processingCount_le_one_of_same_id (queue : List Item000) (a : String)
    (hnd : (queue.map (fun q => q.id)).Nodup)
    (hall : ∀ q ∈ queue, q.status = Status.processing → q.id = a) :
    processingCount queue ≤ 1 := by
  induction queue with
  | nil => simp [processingCount]
  | cons q t ih =>
    simp only [List.map_cons, List.nodup_cons] at hnd
    by_cases hq : q.status = Status.processing
    · have hqa : q.id = a := hall q (by simp) hq
      have ht : ∀ r ∈ t, r.status ≠ Status.processing := by
        intro r hr hrp
        have hra : r.id = a := hall r (by simp [hr]) hrp
        exact hnd.1 (by rw [hqa, ← hra]; exact List.mem_map_of_mem _ hr)
      have : processingCount t = 0 := processingCount_zero t ht
      simp only [processingCount, List.filter_cons, decide_eq_true_eq] at this ⊢
      rw [if_pos hq]
      simp only [List.length_cons]
      omega
    · have : processingCount (q :: t) = processingCount t := by
        simp only [processingCount, List.filter_cons, decide_eq_true_eq]
        rw [if_neg hq]
      rw [this]
      exact ih hnd.2 (fun r hr hrp => hall r (by simp [hr]) hrp)

theorem schedInv_processingCount (s : ProcState) (hinv : SchedInv s) :
    processingCount s.queue ≤ 1 := by
  obtain ⟨hnd, hall⟩ := hinv
  match hfl : s.inFlight with
  | none =>
    have : processingCount s.queue = 0 := by
      apply processingCount_zero
      intro q hq hqp
      have := hall q hq hqp
      rw [hfl] at this
      exact Option.noConfusion this
    omega
  | some a =>
    apply processingCount_le_one_of_same_id s.queue a hnd
    intro q hq hqp
    have := hall q hq hqp
    rw [hfl] at this
    exact (Option.some.injEq _ _ ▸ this).symm

theorem tickStart_busy0 (s : ProcState) (h : s.inFlight.isSome = true) :
    tickStart s = s := by
  unfold tickStart
  rw [if_pos h]

theorem tickStart_nothing (s : ProcState) (hfl : s.inFlight.isSome = false)
    (hfp : findPending s.queue = none) : tickStart s = s := by
  unfold tickStart
  rw [if_neg (by simp [hfl]), hfp]

theorem tickStart_dequeue (s : ProcState) (it : Item000)
    (hfl : s.inFlight.isSome = false) (hfp : findPending s.queue = some it)
    (hsleep : s.sleepMode = false) :
    tickStart s = { s with queue := setStatus000 s.queue it.id Status.processing,
                           inFlight := some it.id } := by
  unfold tickStart
  rw [if_neg (by simp [hfl]), hfp]
  simp [hsleep]

theorem tickStart_sleep (s : ProcState) (h : s.sleepMode = true) :
    tickStart s = s := by
  unfold tickStart
  by_cases hfl : s.inFlight.isSome = true
  · rw [if_pos hfl]
  · rw [if_neg hfl]
    cases hfp : findPending s.queue with
    | none => rfl
    | some it => simp [h]

theorem schedInv_tickStart (s : ProcState) (hinv : SchedInv s) :
    SchedInv (tickStart s) := by
  obtain ⟨hnd, hall⟩ := hinv
  by_cases hfl : s.inFlight.isSome = true
  · rw [tickStart_busy0 s hfl]; exact ⟨hnd, hall⟩
  · have hfl2 : s.inFlight.isSome = false := by simpa using hfl
    have hflnone : s.inFlight = none := by
      cases h : s.inFlight with
      | none => rfl
      | some a => rw [h] at hfl2; simp at hfl2
    cases hfp : findPending s.queue with
    | none => rw [tickStart_nothing s hfl2 hfp]; exact ⟨hnd, hall⟩
    | some it =>
      by_cases hsleep : s.sleepMode = true
      · rw [tickStart_sleep s hsleep]; exact ⟨hnd, hall⟩
      · have hsleep2 : s.sleepMode = false := by simpa using hsleep
        rw [tickStart_dequeue s it hfl2 hfp hsleep2]
        constructor
        · simpa [setStatus000_map_id] using hnd
        · intro q hq hqp
          simp only [setStatus000, List.mem_map] at hq
          obtain ⟨q0, hq0, hq0eq⟩ := hq
          by_cases hid : q0.id = it.id
          · rw [if_pos hid] at hq0eq
            rw [← hq0eq]
            simp [hid]
          · rw [if_neg hid] at hq0eq
            rw [← hq0eq] at hqp
            have := hall q0 hq0 hqp
            rw [hflnone] at this
            exact Option.noConfusion this

theorem tickFinish_some (s : ProcState) (a : String) (b : Bool)
    (hfl : s.inFlight = some a) :
    tickFinish s b =
      { s with queue := setStatus000 s.queue a
                 (if b then Status.completed else Status.failed)
               inFlight := none } := by
  unfold tickFinish
  rw [hfl]

theorem tickFinish_none (s : ProcState) (b : Bool) (hfl : s.inFlight = none) :
    tickFinish s b = s := by
  unfold tickFinish
  rw [hfl]

theorem schedInv_tickFinish (s : ProcState) (b : Bool) (hinv : SchedInv s) :
    SchedInv (tickFinish s b) := by
  obtain ⟨hnd, hall⟩ := hinv
  cases hfl : s.inFlight with
  | none => rw [tickFinish_none s b hfl]; exact ⟨hnd, hall⟩
  | some a =>
    rw [tickFinish_some s a b hfl]
    constructor
    · simpa [setStatus000_map_id] using hnd
    · intro q hq hqp
      simp only [setStatus000, List.mem_map] at hq
      obtain ⟨q0, hq0, hq0eq⟩ := hq
      by_cases hid : q0.id = a
      · rw [if_pos hid] at hq0eq
        rw [← hq0eq] at hqp
        simp only at hqp
        cases b <;> simp_all
      · rw [if_neg hid] at hq0eq
        rw [← hq0eq] at hqp
        have := hall q0 hq0 hqp
        rw [hfl] at this
        exact absurd (Option.some.inj this).symm hid

theorem schedInv_run (s : ProcState) (steps : List SchedStep) (hinv : SchedInv s) :
    SchedInv (schedRun s steps) := by
  induction steps generalizing s with
  | nil => exact hinv
  | cons st rest ih =>
    apply ih
    cases st with
    | tick => exact schedInv_tickStart s hinv
    | finish b => exact schedInv_tickFinish s b hinv


/-! ## Helper lemmas on the `index.tsx` model -/

/-- Placeholder item used as `getD` default. -/
def dummyItem : QueueItem :=
  { id := "", title := "", source := "", addedAt := "", status := Status.pending,
    mediaUrls := [], targets := [], retryCount := 0 }

/-- Placeholder media-array entry used as `getD` default. -/
def dummyEntry : MediaEntry :=
  { kind := MediaKind.photo, media := "", caption := none }

/-- Placeholder media item used as `getD` default. -/
def dummyMedia : MediaItem := { url := "", kind := MediaKind.photo }

theorem updateQueueStatus_twice (queue : List QueueItem) (id : String)
    (st1 st2 : Status) :
    updateQueueStatus (updateQueueStatus queue id st1) id st2 =
      updateQueueStatus queue id st2 := by
  unfold updateQueueStatus
  rw [List.map_map]
  apply List.map_congr_left
  intro q _
  by_cases h : q.id = id <;> simp [h]

theorem updateQueueStatus_length (queue : List QueueItem) (id : String) (st : Status) :
    (updateQueueStatus queue id st).length = queue.length := by
  unfold updateQueueStatus
  exact List.length_map _ _

theorem updateQueueStatus_getD (queue : List QueueItem) (id : String) (st : Status)
    (j : Nat) (hj : j < queue.length) :
    (updateQueueStatus queue id st).getD j dummyItem =
      (if (queue.getD j dummyItem).id = id
       then { queue.getD j dummyItem with status := st }
       else queue.getD j dummyItem) := by
  induction queue generalizing j with
  | nil => simp at hj
  | cons q t ih =>
    cases j with
    | zero => simp [updateQueueStatus]
    | succ j =>
      simp only [List.length_cons, Nat.succ_lt_succ_iff] at hj
      simpa [updateQueueStatus] using ih j hj

theorem updateQueueStatus_mem_id (queue : List QueueItem) (id : String) (st : Status) :
    ∀ q ∈ updateQueueStatus queue id st, q.id = id → q.status = st := by
  intro q hq hid
  simp only [updateQueueStatus, List.mem_map] at hq
  obtain ⟨q0, _, hq0eq⟩ := hq
  by_cases h : q0.id = id
  · rw [if_pos h] at hq0eq
    rw [← hq0eq]
  · rw [if_neg h] at hq0eq
    rw [← hq0eq] at hid
    exact absurd hid h

theorem chunkGo_mem_length (media : List MediaItem) :
    ∀ (rem i : Nat), ∀ c ∈ chunkGo media i rem, c.length ≤ 10 := by
  intro rem
  induction rem with
  | zero => intro i c hc; simp [chunkGo] at hc
  | succ rem ih =>
    intro i c hc
    rw [chunkGo] at hc
    by_cases h : i < media.length
    · rw [if_pos h] at hc
      rcases List.mem_cons.mp hc with hc | hc
      · rw [hc]
        exact le_trans (List.length_take_le _ _) (by omega)
      · exact ih (i + 10) c hc
    · rw [if_neg h] at hc
      simp at hc

theorem buildEntriesFrom_length (title : String) (i : Nat) :
    ∀ (chunk : List MediaItem) (idx : Nat),
      (buildEntriesFrom title i idx chunk).length = chunk.length := by
  intro chunk
  induction chunk with
  | nil => intro idx; rfl
  | cons m ms ih =>
    intro idx
    simp [buildEntriesFrom, ih (idx + 1)]

theorem buildEntriesFrom_getD (title : String) (i : Nat) :
    ∀ (chunk : List MediaItem) (idx k : Nat), k < chunk.length →
      (buildEntriesFrom title i idx chunk).getD k dummyEntry =
        buildEntry title i (idx + k) (chunk.getD k dummyMedia) := by
  intro chunk
  induction chunk with
  | nil => intro idx k hk; simp at hk
  | cons m ms ih =>
    intro idx k hk
    cases k with
    | zero => simp [buildEntriesFrom]
    | succ k =>
      simp only [List.length_cons, Nat.succ_lt_succ_iff] at hk
      simp only [buildEntriesFrom, List.getD_cons_succ]
      rw [ih (idx + 1) k hk]
      have : idx + 1 + k = idx + (k + 1) := by omega
      rw [this]

theorem chunkArraysFrom_length (title : String) :
    ∀ (cs : List (List MediaItem)) (i : Nat),
      (chunkArraysFrom title i cs).length = cs.length := by
  intro cs
  induction cs with
  | nil => intro i; rfl
  | cons c cs ih =>
    intro i
    simp [chunkArraysFrom, ih (i + 1)]

theorem chunkArraysFrom_getD (title : String) :
    ∀ (cs : List (List MediaItem)) (i k : Nat), k < cs.length →
      (chunkArraysFrom title i cs).getD k [] =
        buildMediaArray title (i + k) (cs.getD k []) := by
  intro cs
  induction cs with
  | nil => intro i k hk; simp at hk
  | cons c cs ih =>
    intro i k hk
    cases k with
    | zero => simp [chunkArraysFrom]
    | succ k =>
      simp only [List.length_cons, Nat.succ_lt_succ_iff] at hk
      simp only [chunkArraysFrom, List.getD_cons_succ]
      rw [ih (i + 1) k hk]
      have : i + 1 + k = i + (k + 1) := by omega
      rw [this]

theorem sendChunks_requests (ok : Nat → Bool) (cd : Nat) (reqUrl chatId title : String)
    (total : Nat) :
    ∀ (cs : List (List MediaItem)) (i : Nat) (acc res : RunAcc),
      (sendChunks ok cd reqUrl chatId title total i cs acc = Except.ok res ∨
        ∃ msg, sendChunks ok cd reqUrl chatId title total i cs acc = Except.error (res, msg)) →
      ∀ u c m, Event.request u c m ∈ res.events →
        Event.request u c m ∈ acc.events ∨ m ∈ chunkArraysFrom title i cs := by
  intro cs
  induction cs with
  | nil =>
    intro i acc res hres u c m hm
    rcases hres with hres | ⟨msg, hres⟩
    · rw [sendChunks] at hres
      cases hres
      exact Or.inl hm
    · rw [sendChunks] at hres
      cases hres
  | cons chunk rest ih =>
    intro i acc res hres u c m hm
    rw [sendChunks] at hres
    by_cases hok : ok acc.reqCount = true
    · rw [if_pos hok] at hres
      have hstep := ih (i + 1) _ res hres u c m hm
      rcases hstep with hstep | hstep
      · by_cases hlt : i < total - 1
        · rw [if_pos hlt] at hstep
          simp only [List.mem_append, List.mem_singleton] at hstep
          rcases hstep with (hstep | hstep) | hstep
          · exact Or.inl hstep
          · cases hstep
            exact Or.inr (by simp [chunkArraysFrom])
          · cases hstep
        · rw [if_neg hlt] at hstep
          simp only [List.mem_append, List.mem_singleton] at hstep
          rcases hstep with hstep | hstep
          · exact Or.inl hstep
          · cases hstep
            exact Or.inr (by simp [chunkArraysFrom])
      · exact Or.inr (by simp [chunkArraysFrom]; exact Or.inr hstep)
    · rw [if_neg hok] at hres
      rcases hres with hres | ⟨msg, hres⟩
      · cases hres
      · cases hres
        simp only [List.mem_append, List.mem_singleton] at hm
        rcases hm with hm | hm
        · exact Or.inl hm
        · cases hm
          exact Or.inr (by simp [chunkArraysFrom])


theorem runTargets_requests (ok : Nat → Bool) (s : SettingsIdx) (title : String)
    (chunks : List (List MediaItem)) :
    ∀ (ts : List QueueTarget) (acc res : RunAcc),
      (runTargets ok s title chunks ts acc = Except.ok res ∨
        ∃ msg, runTargets ok s title chunks ts acc = Except.error (res, msg)) →
      ∀ u c m, Event.request u c m ∈ res.events →
        Event.request u c m ∈ acc.events ∨ m ∈ targetMediaArrays title chunks := by
  intro ts
  induction ts with
  | nil =>
    intro acc res hres u c m hm
    rcases hres with hres | ⟨msg, hres⟩
    · rw [runTargets] at hres
      cases hres
      exact Or.inl hm
    · rw [runTargets] at hres
      cases hres
  | cons t rest ih =>
    intro acc res hres u c m hm
    rw [runTargets] at hres
    by_cases hskip : jsOrStr t.token
        (if t.platform = Platform.telegram then s.telegramBotToken else s.baleBotToken) = ""
        ∨ t.chatId = ""
    · rw [if_pos hskip] at hres
      have := ih _ res hres u c m hm
      simpa using this
    · rw [if_neg hskip] at hres
      cases hsend : sendChunks ok s.advanced.chunkDelay
          (s.corsProxy ++ baseUrl t.platform
            (jsOrStr t.token
              (if t.platform = Platform.telegram then s.telegramBotToken else s.baleBotToken))
            ++ "/sendMediaGroup")
          t.chatId title chunks.length 0 chunks acc with
      | ok acc1 =>
        simp only [hsend] at hres
        have hrest := ih acc1 res hres u c m hm
        rcases hrest with hrest | hrest
        · have hsc := sendChunks_requests ok s.advanced.chunkDelay _ t.chatId title
            chunks.length chunks 0 acc acc1 (Or.inl hsend) u c m hrest
          rcases hsc with hsc | hsc
          · exact Or.inl hsc
          · exact Or.inr (by simpa [targetMediaArrays] using hsc)
        · exact Or.inr hrest
      | error e =>
        simp only [hsend] at hres
        rcases hres with hres | ⟨msg, hres⟩
        · cases hres
        · rw [hres] at hsend
          have hsc := sendChunks_requests ok s.advanced.chunkDelay _ t.chatId title
            chunks.length chunks 0 acc res (Or.inr ⟨msg, hsend⟩) u c m hm
          rcases hsc with hsc | hsc
          · exact Or.inl hsc
          · exact Or.inr (by simpa [targetMediaArrays] using hsc)

/-! ## Helper lemmas on the `src/unnamed/part_000` model -/

theorem mediaChunks000_nil : mediaChunks000 [] = [] := by
  simp [mediaChunks000]

theorem platformRun000_empty (ok : Nat → Bool) (p : Platform) (enabled : Bool)
    (token chatId title : String) (evs : List Ev000) (cnt : Nat) :
    platformRun000 ok p enabled token chatId title [] evs cnt =
      if enabled = true ∧ token ≠ "" then
        (if ok cnt then
          Except.ok (evs ++ [Ev000.call p (Call000.message chatId title)], cnt + 1)
         else
          Except.error (evs ++ [Ev000.call p (Call000.message chatId title)]))
      else Except.ok (evs, cnt) := by
  simp [platformRun000]

theorem chunkCall000_photo (title chatId : String) (j : Nat) (chunk : List String)
    (cid mf cap : String)
    (h : chunkCall000 title chatId j chunk = Call000.photo cid mf cap) :
    cap = title ∧ cid = chatId := by
  unfold chunkCall000 at h
  split at h
  · injection h with h1 h2 h3
    exact ⟨h3.symm, h1.symm⟩
  · cases h

theorem chunkLoop000_calls (ok : Nat → Bool) (p : Platform) (chatId title : String) :
    ∀ (cs : List (List String)) (i : Nat) (evs : List Ev000) (cnt : Nat)
      (res : List Ev000),
      (chunkLoop000 ok p chatId title i cs evs cnt = Except.error res ∨
        ∃ cnt2, chunkLoop000 ok p chatId title i cs evs cnt = Except.ok (res, cnt2)) →
      ∀ q c, Ev000.call q c ∈ res →
        Ev000.call q c ∈ evs ∨ ∃ j chunk, c = chunkCall000 title chatId j chunk := by
  intro cs
  induction cs with
  | nil =>
    intro i evs cnt res hres q c hm
    rcases hres with hres | ⟨cnt2, hres⟩
    · rw [chunkLoop000] at hres
      cases hres
    · rw [chunkLoop000] at hres
      cases hres
      exact Or.inl hm
  | cons c0 rest ih =>
    intro i evs cnt res hres q c hm
    rw [chunkLoop000] at hres
    by_cases hok : ok cnt = true
    · rw [if_pos hok] at hres
      have hstep := ih (i + 1) _ (cnt + 1) res hres q c hm
      rcases hstep with hstep | hstep
      · simp only [List.mem_append, List.mem_singleton] at hstep
        rcases hstep with hstep | hstep
        · by_cases hi : i > 0
          · rw [if_pos hi] at hstep
            simp only [List.mem_append, List.mem_singleton] at hstep
            rcases hstep with hstep | hstep
            · exact Or.inl hstep
            · cases hstep
          · rw [if_neg hi] at hstep
            exact Or.inl hstep
        · cases hstep
          exact Or.inr ⟨i, c0, rfl⟩
      · exact Or.inr hstep
    · rw [if_neg hok] at hres
      rcases hres with hres | ⟨cnt2, hres⟩
      · cases hres
        simp only [List.mem_append, List.mem_singleton] at hm
        rcases hm with hm | hm
        · by_cases hi : i > 0
          · rw [if_pos hi] at hm
            simp only [List.mem_append, List.mem_singleton] at hm
            rcases hm with hm | hm
            · exact Or.inl hm
            · cases hm
          · rw [if_neg hi] at hm
            exact Or.inl hm
        · cases hm
          exact Or.inr ⟨i, c0, rfl⟩
      · cases hres

theorem platformRun000_calls (ok : Nat → Bool) (p : Platform) (enabled : Bool)
    (token chatId title : String) (chunks : List (List String)) (evs : List Ev000)
    (cnt : Nat) (res : List Ev000)
    (hres : platformRun000 ok p enabled token chatId title chunks evs cnt = Except.error res ∨
      ∃ cnt2, platformRun000 ok p enabled token chatId title chunks evs cnt = Except.ok (res, cnt2)) :
    ∀ q c, Ev000.call q c ∈ res →
      Ev000.call q c ∈ evs ∨ c = Call000.message chatId title ∨
        ∃ j chunk, c = chunkCall000 title chatId j chunk := by
  intro q c hm
  unfold platformRun000 at hres
  by_cases hen : enabled = true ∧ token ≠ ""
  · rw [if_pos hen] at hres
    by_cases hem : chunks.isEmpty
    · rw [if_pos hem] at hres
      by_cases hok : ok cnt = true
      · rw [if_pos hok] at hres
        rcases hres with hres | ⟨cnt2, hres⟩
        · cases hres
        · cases hres
          simp only [List.mem_append, List.mem_singleton] at hm
          rcases hm with hm | hm
          · exact Or.inl hm
          · cases hm
            exact Or.inr (Or.inl rfl)
      · rw [if_neg hok] at hres
        rcases hres with hres | ⟨cnt2, hres⟩
        · cases hres
          simp only [List.mem_append, List.mem_singleton] at hm
          rcases hm with hm | hm
          · exact Or.inl hm
          · cases hm
            exact Or.inr (Or.inl rfl)
        · cases hres
    · rw [if_neg hem] at hres
      have := chunkLoop000_calls ok p chatId title chunks 0 evs cnt res hres q c hm
      rcases this with h | h
      · exact Or.inl h
      · exact Or.inr (Or.inr h)
  · rw [if_neg hen] at hres
    rcases hres with hres | ⟨cnt2, hres⟩
    · cases hres
    · cases hres
      exact Or.inl hm

theorem deliver000_photo_caption (ok : Nat → Bool) (s : Settings000) (it : Item000)
    (p : Platform) (cid mf cap : String)
    (hm : Ev000.call p (Call000.photo cid mf cap) ∈ (deliver000 ok s it).2) :
    cap = it.title := by
  unfold deliver000 at hm
  cases h1 : platformRun000 ok Platform.telegram (it.platforms.contains Platform.telegram)
      s.telegramBotToken s.telegramChatId it.title (mediaChunks000 it.mediaUrls) [] 0 with
  | error evs =>
    simp only [h1] at hm
    have := platformRun000_calls ok Platform.telegram _ _ _ _ _ [] 0 evs (Or.inl h1)
      p (Call000.photo cid mf cap) hm
    rcases this with h | h | ⟨j, chunk, h⟩
    · simp at h
    · cases h
    · exact (chunkCall000_photo _ _ _ _ _ _ _ h.symm).1
  | ok r1 =>
    obtain ⟨evs1, cnt1⟩ := r1
    simp only [h1] at hm
    cases h2 : platformRun000 ok Platform.bale (it.platforms.contains Platform.bale)
        s.baleBotToken s.baleChatId it.title (mediaChunks000 it.mediaUrls) evs1 cnt1 with
    | error evs =>
      simp only [h2] at hm
      have h2c := platformRun000_calls ok Platform.bale _ _ _ _ _ evs1 cnt1 evs (Or.inl h2)
        p (Call000.photo cid mf cap) hm
      rcases h2c with h | h | ⟨j, chunk, h⟩
      · have h1c := platformRun000_calls ok Platform.telegram _ _ _ _ _ [] 0 evs1
          (Or.inr ⟨cnt1, h1⟩) p (Call000.photo cid mf cap) h
        rcases h1c with h | h | ⟨j, chunk, h⟩
        · simp at h
        · cases h
        · exact (chunkCall000_photo _ _ _ _ _ _ _ h.symm).1
      · cases h
      · exact (chunkCall000_photo _ _ _ _ _ _ _ h.symm).1
    | ok r2 =>
      obtain ⟨evs2, cnt2⟩ := r2
      simp only [h2] at hm
      have h2c := platformRun000_calls ok Platform.bale _ _ _ _ _ evs1 cnt1 evs2
        (Or.inr ⟨cnt2, h2⟩) p (Call000.photo cid mf cap) hm
      rcases h2c with h | h | ⟨j, chunk, h⟩
      · have h1c := platformRun000_calls ok Platform.telegram _ _ _ _ _ [] 0 evs1
          (Or.inr ⟨cnt1, h1⟩) p (Call000.photo cid mf cap) h
        rcases h1c with h | h | ⟨j, chunk, h⟩
        · simp at h
        · cases h
        · exact (chunkCall000_photo _ _ _ _ _ _ _ h.symm).1
      · cases h
      · exact (chunkCall000_photo _ _ _ _ _ _ _ h.symm).1

/-! ## Claim theorems -/

/-- Claim C1: at every point of every execution of the queue processor
(modelled as any interleaving of tick prefixes and item conclusions from a
state satisfying the scheduler invariant, which holds of the initial empty
queue), at most one queue item has status `processing`; moreover a tick
that begins while an item is in flight (`isProcessing` set) changes
nothing at all: no dequeue and no status transition of any item. -/
theorem c1_single_flight :
    (∀ (s0 : ProcState) (steps : List SchedStep), SchedInv s0 →
      processingCount (schedRun s0 steps).queue ≤ 1) ∧
    (∀ s : ProcState, s.inFlight.isSome = true → tickStart s = s) := by
  constructor
  · intro s0 steps hinv
    exact schedInv_processingCount _ (schedInv_run s0 steps hinv)
  · exact tickStart_busy0

/-- Example items and states used by the closed witness theorems. -/
def exItemA : Item000 :=
  { id := "a", title := "t", source := "s", addedAt := "", status := Status.pending,
    mediaUrls := [], platforms := [Platform.telegram], retryCount := 0 }

def exItemB : Item000 :=
  { id := "b", title := "u", source := "s", addedAt := "", status := Status.pending,
    mediaUrls := [], platforms := [Platform.bale], retryCount := 0 }

def exState : ProcState :=
  { queue := [exItemA, exItemB], sleepMode := false, inFlight := none }

def exBusyState : ProcState :=
  { queue := [{ exItemA with status := Status.processing }, exItemB],
    sleepMode := false, inFlight := some "a" }

/-- Witness for C1: a concrete two-item queue satisfies the invariant, a
concrete three-step execution keeps at most one item processing, and a
tick on a busy state is the identity. -/
theorem c1_single_flight_witness :
    SchedInv exState ∧
    processingCount (schedRun exState
      [SchedStep.tick, SchedStep.finish true, SchedStep.tick]).queue ≤ 1 ∧
    tickStart exBusyState = exBusyState :=
  ⟨by decide,
   c1_single_flight.1 exState [SchedStep.tick, SchedStep.finish true, SchedStep.tick]
     (by decide),
   c1_single_flight.2 exBusyState (by decide)⟩

/-- Claim C5: whenever `sleepMode` is on, any number of scheduler ticks
leaves the state untouched; in particular no `pending` item is ever
transitioned to `processing`. -/
theorem c5_sleep_gate :
    ∀ (s : ProcState) (n : Nat), s.sleepMode = true →
      tickStart^[n] s = s ∧
      ∀ q ∈ s.queue, q.status = Status.pending →
        q ∈ (tickStart^[n] s).queue ∧ q.status = Status.pending := by
  intro s n hs
  have hit : tickStart^[n] s = s := by
    induction n with
    | zero => rfl
    | succ n ih =>
      rw [Function.iterate_succ_apply, tickStart_sleep s hs, ih]
  refine ⟨hit, ?_⟩
  intro q hq hqp
  rw [hit]
  exact ⟨hq, hqp⟩

def exSleepState : ProcState :=
  { queue := [exItemA, exItemB], sleepMode := true, inFlight := none }

/-- Witness for C5: five ticks on a concrete sleeping state change
nothing. -/
theorem c5_sleep_gate_witness :
    tickStart^[5] exSleepState = exSleepState ∧
    ∀ q ∈ exSleepState.queue, q.status = Status.pending →
      q ∈ (tickStart^[5] exSleepState).queue ∧ q.status = Status.pending :=
  c5_sleep_gate exSleepState 5 (by decide)

/-- Claim C2: for every media list, the chunker of `index.tsx` returns
exactly `min(ceil(n/10), 3)` chunks; chunk `k` is the slice
`[10k, 10k+10)` of the input; every chunk has at most 10 items; the
concatenation of the chunks is the first 30 items in original order (so
items beyond position 30 are dropped and ordering is preserved); the empty
list yields no chunks; and the function is deterministic. -/
theorem c2_chunker :
    ∀ media : List MediaItem,
      (mediaChunks media).length = min ((media.length + 9) / 10) 3 ∧
      (∀ k, k < (mediaChunks media).length →
        (mediaChunks media).getD k [] = (media.drop (10 * k)).take 10) ∧
      (∀ c ∈ mediaChunks media, c.length ≤ 10) ∧
      (mediaChunks media).flatten = media.take 30 ∧
      (media = [] → mediaChunks media = []) ∧
      (∀ m2 : List MediaItem, media = m2 → mediaChunks media = mediaChunks m2) := by
  intro media
  refine ⟨?_, ?_, ?_, ?_, ?_, ?_⟩
  · rw [mediaChunks, chunkGo_length]
    omega
  · intro k hk
    rw [mediaChunks] at hk ⊢
    rw [chunkGo_getD media 3 0 k hk]
    simp
  · intro c hc
    exact chunkGo_mem_length media 3 0 c hc
  · have := chunkGo_flatten media 3 0
    simpa using this
  · intro h
    rw [h]
    rfl
  · intro m2 h
    rw [h]

/-- Witness for C2: the chunker specification instantiated at a concrete
25-item media list (the embedded universal facts at that input). -/
theorem c2_chunker_witness :
    (mediaChunks (List.replicate 25 dummyMedia)).length =
      min (((List.replicate 25 dummyMedia).length + 9) / 10) 3 ∧
    (mediaChunks (List.replicate 25 dummyMedia)).flatten =
      (List.replicate 25 dummyMedia).take 30 :=
  ⟨(c2_chunker (List.replicate 25 dummyMedia)).1,
   (c2_chunker (List.replicate 25 dummyMedia)).2.2.2.1⟩

/-- Claim C10: processing a pending item whose target list is empty issues
no network request, transitions the item to `completed`, and emits a
SUCCESS log entry. -/
theorem c10_empty_targets :
    ∀ (ok : Nat → Bool) (s : SettingsIdx) (queue : List QueueItem) (it : QueueItem),
      queue.find? (fun q => q.status = Status.pending) = some it →
      it.targets = [] →
      (processQueueIndex ok s queue).events = [] ∧
      (processQueueIndex ok s queue).queue = updateQueueStatus queue it.id Status.completed ∧
      (∀ q ∈ (processQueueIndex ok s queue).queue, q.id = it.id →
        q.status = Status.completed) ∧
      (⟨LogLevel.SUCCESS, "Item processed successfully."⟩ : LogEntry) ∈
        (processQueueIndex ok s queue).logs := by
  intro ok s queue it hfind htg
  have hrun : runTargets ok s it.title (mediaChunks it.mediaUrls) it.targets
      ⟨[], [], 0⟩ = Except.ok ⟨[], [], 0⟩ := by
    rw [htg, runTargets]
  have hres : processQueueIndex ok s queue =
      ⟨updateQueueStatus queue it.id Status.completed,
       ⟨LogLevel.INFO, "Processing item for " ++ toString it.targets.length ++ " targets..."⟩
         :: [⟨LogLevel.SUCCESS, "Item processed successfully."⟩],
       []⟩ := by
    simp [processQueueIndex, hfind, hrun, updateQueueStatus_twice]
  refine ⟨?_, ?_, ?_, ?_⟩
  · rw [hres]
  · rw [hres]
  · rw [hres]
    exact updateQueueStatus_mem_id queue it.id Status.completed
  · rw [hres]
    simp

def exTargetT : QueueTarget :=
  { platform := Platform.telegram, chatId := "@c", token := some "tok" }

def exQItemNoTargets : QueueItem :=
  { id := "q1", title := "hello", source := "s", addedAt := "", status := Status.pending,
    mediaUrls := [], targets := [], retryCount := 0 }

def exSettingsIdx : SettingsIdx :=
  { sleepMode := false, telegramBotToken := "G", baleBotToken := "H", corsProxy := "",
    advanced := { postDelay := 5000, chunkDelay := 3000, maxRetries := 3, ttl := 24,
                  rssFetchInterval := 10 } }

/-- Witness for C10: a concrete one-item queue with no targets completes
with no events and a SUCCESS log. -/
theorem c10_empty_targets_witness :
    (processQueueIndex (fun _ => true) exSettingsIdx [exQItemNoTargets]).events = [] ∧
    (processQueueIndex (fun _ => true) exSettingsIdx [exQItemNoTargets]).queue =
      updateQueueStatus [exQItemNoTargets] exQItemNoTargets.id Status.completed ∧
    (∀ q ∈ (processQueueIndex (fun _ => true) exSettingsIdx [exQItemNoTargets]).queue,
      q.id = exQItemNoTargets.id → q.status = Status.completed) ∧
    (⟨LogLevel.SUCCESS, "Item processed successfully."⟩ : LogEntry) ∈
      (processQueueIndex (fun _ => true) exSettingsIdx [exQItemNoTargets]).logs :=
  c10_empty_targets (fun _ => true) exSettingsIdx [exQItemNoTargets] exQItemNoTargets
    (by decide) rfl

/-- Claim C6: when any delivery call of an item fails, the item is marked
`failed` and an ERROR entry is logged; the item's other fields (in
particular `retryCount`) are untouched, every other queue item is
untouched, and the requests already issued (to earlier targets or chunks)
stay in the trace — nothing is rolled back. -/
theorem c6_failure_frame :
    ∀ (ok : Nat → Bool) (s : SettingsIdx) (queue : List QueueItem) (it : QueueItem)
      (acc : RunAcc) (msg : String),
      queue.find? (fun q => q.status = Status.pending) = some it →
      runTargets ok s it.title (mediaChunks it.mediaUrls) it.targets ⟨[], [], 0⟩ =
        Except.error (acc, msg) →
      (processQueueIndex ok s queue).queue.length = queue.length ∧
      (∀ j, j < queue.length →
        (processQueueIndex ok s queue).queue.getD j dummyItem =
          (if (queue.getD j dummyItem).id = it.id
           then { queue.getD j dummyItem with status := Status.failed }
           else queue.getD j dummyItem)) ∧
      (⟨LogLevel.ERROR, msg⟩ : LogEntry) ∈ (processQueueIndex ok s queue).logs ∧
      (processQueueIndex ok s queue).events = acc.events ∧
      (∀ ev ∈ acc.events, ev ∈ (processQueueIndex ok s queue).events) := by
  intro ok s queue it acc msg hfind hrun
  have hq : (processQueueIndex ok s queue).queue =
      updateQueueStatus queue it.id Status.failed := by
    simp [processQueueIndex, hfind, hrun, updateQueueStatus_twice]
  refine ⟨?_, ?_, ?_, ?_, ?_⟩
  · rw [hq, updateQueueStatus_length]
  · intro j hj
    rw [hq]
    exact updateQueueStatus_getD queue it.id Status.failed j hj
  · simp [processQueueIndex, hfind, hrun]
  · simp [processQueueIndex, hfind, hrun]
  · intro ev hev
    have : (processQueueIndex ok s queue).events = acc.events := by
      simp [processQueueIndex, hfind, hrun]
    rw [this]
    exact hev

def exMediaA : MediaItem := { url := "http://a.jpg", kind := MediaKind.photo }

def exQItemFail : QueueItem :=
  { id := "q2", title := "hello", source := "s", addedAt := "", status := Status.pending,
    mediaUrls := [exMediaA], targets := [exTargetT], retryCount := 0 }

/-- The effect accumulator of the concrete failing run used as witness for
C6: one `sendMediaGroup` request was issued before the failure. -/
def exFailAcc : RunAcc :=
  { events := [Event.request "https://api.telegram.org/bottok/sendMediaGroup" "@c"
      [{ kind := MediaKind.photo, media := "http://a.jpg", caption := some "hello" }]],
    logs := [], reqCount := 1 }

/-- Witness for C6: a concrete run whose only request fails marks the item
failed, logs an ERROR, and keeps the issued request in the trace. -/
theorem c6_failure_frame_witness :
    (processQueueIndex (fun _ => false) exSettingsIdx [exQItemFail]).queue.length =
      ([exQItemFail] : List QueueItem).length ∧
    (∀ j, j < ([exQItemFail] : List QueueItem).length →
      (processQueueIndex (fun _ => false) exSettingsIdx [exQItemFail]).queue.getD j dummyItem =
        (if (([exQItemFail] : List QueueItem).getD j dummyItem).id = exQItemFail.id
         then { ([exQItemFail] : List QueueItem).getD j dummyItem with status := Status.failed }
         else ([exQItemFail] : List QueueItem).getD j dummyItem)) ∧
    (⟨LogLevel.ERROR, "request failed"⟩ : LogEntry) ∈
      (processQueueIndex (fun _ => false) exSettingsIdx [exQItemFail]).logs ∧
    (processQueueIndex (fun _ => false) exSettingsIdx [exQItemFail]).events =
      exFailAcc.events ∧
    (∀ ev ∈ exFailAcc.events,
      ev ∈ (processQueueIndex (fun _ => false) exSettingsIdx [exQItemFail]).events) :=
  c6_failure_frame (fun _ => false) exSettingsIdx [exQItemFail] exQItemFail exFailAcc
    "request failed" (by decide) (by rfl)

/-- Claim C4: for an item with non-empty media, the media arrays a target
receives carry exactly one caption: entry 0 of chunk 0 holds the rendered
caption (the item title) and every other entry of every chunk has no
caption field; and every `sendMediaGroup` request issued by a processing
run carries one of exactly these arrays. -/
theorem c4_caption_once :
    (∀ (title : String) (media : List MediaItem), media ≠ [] →
      0 < (targetMediaArrays title (mediaChunks media)).length ∧
      0 < ((targetMediaArrays title (mediaChunks media)).getD 0 []).length ∧
      (((targetMediaArrays title (mediaChunks media)).getD 0 []).getD 0 dummyEntry).caption
        = some title ∧
      (∀ i k, i < (targetMediaArrays title (mediaChunks media)).length →
        k < ((targetMediaArrays title (mediaChunks media)).getD i []).length →
        ¬(i = 0 ∧ k = 0) →
        (((targetMediaArrays title (mediaChunks media)).getD i []).getD k dummyEntry).caption
          = none)) ∧
    (∀ (ok : Nat → Bool) (s : SettingsIdx) (queue : List QueueItem) (it : QueueItem)
      (u c : String) (m : List MediaEntry),
      queue.find? (fun q => q.status = Status.pending) = some it →
      Event.request u c m ∈ (processQueueIndex ok s queue).events →
      m ∈ targetMediaArrays it.title (mediaChunks it.mediaUrls)) := by
  constructor
  · intro title media hme
    have hmlen : 0 < media.length := List.length_pos.mpr hme
    have hclen : (mediaChunks media).length = min ((media.length + 9) / 10) 3 := by
      rw [mediaChunks, chunkGo_length]
      omega
    have hcpos : 0 < (mediaChunks media).length := by
      rw [hclen]
      omega
    have halen : (targetMediaArrays title (mediaChunks media)).length
        = (mediaChunks media).length := by
      rw [targetMediaArrays, chunkArraysFrom_length]
    have hchunk0 : (mediaChunks media).getD 0 [] = media.take 10 := by
      rw [mediaChunks, chunkGo_getD media 3 0 0 (by rw [← mediaChunks]; exact hcpos)]
      simp
    have harr0 : (targetMediaArrays title (mediaChunks media)).getD 0 []
        = buildMediaArray title 0 (media.take 10) := by
      rw [targetMediaArrays, chunkArraysFrom_getD title (mediaChunks media) 0 0 hcpos,
        hchunk0]
    have htake10 : 0 < (media.take 10).length := by
      rw [List.length_take]
      omega
    refine ⟨?_, ?_, ?_, ?_⟩
    · rw [halen]; exact hcpos
    · rw [harr0, buildMediaArray, buildEntriesFrom_length]
      exact htake10
    · rw [harr0, buildMediaArray, buildEntriesFrom_getD title 0 (media.take 10) 0 0 htake10]
      simp [buildEntry]
    · intro i k hi hk hne
      rw [halen] at hi
      have harri : (targetMediaArrays title (mediaChunks media)).getD i []
          = buildMediaArray title i ((mediaChunks media).getD i []) := by
        rw [targetMediaArrays, chunkArraysFrom_getD title (mediaChunks media) 0 i hi]
        rw [show (0 : Nat) + i = i by omega]
      rw [harri] at hk ⊢
      rw [buildMediaArray, buildEntriesFrom_length] at hk
      rw [buildMediaArray, buildEntriesFrom_getD title i _ 0 k hk]
      simp only [buildEntry]
      simp only [Nat.zero_add]
      rw [if_neg (fun hc => hne ⟨hc.2, hc.1⟩)]
  · intro ok s queue it u c m hfind hm
    cases hrun : runTargets ok s it.title (mediaChunks it.mediaUrls) it.targets
        ⟨[], [], 0⟩ with
    | ok acc =>
      have hev : (processQueueIndex ok s queue).events = acc.events := by
        simp [processQueueIndex, hfind, hrun]
      rw [hev] at hm
      have := runTargets_requests ok s it.title (mediaChunks it.mediaUrls) it.targets
        ⟨[], [], 0⟩ acc (Or.inl hrun) u c m hm
      rcases this with h | h
      · simp at h
      · exact h
    | error e =>
      obtain ⟨acc, msg⟩ := e
      have hev : (processQueueIndex ok s queue).events = acc.events := by
        simp [processQueueIndex, hfind, hrun]
      rw [hev] at hm
      have := runTargets_requests ok s it.title (mediaChunks it.mediaUrls) it.targets
        ⟨[], [], 0⟩ acc (Or.inr ⟨msg, hrun⟩) u c m hm
      rcases this with h | h
      · simp at h
      · exact h

/-- Witness for C4: the caption facts instantiated at a concrete two-item
media list, and the trace fact instantiated on the concrete failing run of
the C6 witness (whose one request payload is indeed a built media array). -/
theorem c4_caption_once_witness :
    (((targetMediaArrays "hello" (mediaChunks [exMediaA, exMediaA])).getD 0 []).getD 0
       dummyEntry).caption = some "hello" ∧
    [{ kind := MediaKind.photo, media := "http://a.jpg", caption := some "hello" }]
      ∈ targetMediaArrays exQItemFail.title (mediaChunks exQItemFail.mediaUrls) :=
  ⟨(c4_caption_once.1 "hello" [exMediaA, exMediaA] (by decide)).2.2.1,
   c4_caption_once.2 (fun _ => false) exSettingsIdx [exQItemFail] exQItemFail
     "https://api.telegram.org/bottok/sendMediaGroup" "@c"
     [{ kind := MediaKind.photo, media := "http://a.jpg", caption := some "hello" }]
     (by decide) (by decide)⟩

/-- Full case characterization of a `src/unnamed/part_000` run on an item
without media: one `sendMessage` call per enabled platform, telegram
first, stopping at the first failure. -/
theorem deliver000_empty_media (ok : Nat → Bool) (s : Settings000) (it : Item000)
    (hm : it.mediaUrls = []) :
    deliver000 ok s it =
      (if it.platforms.contains Platform.telegram = true ∧ s.telegramBotToken ≠ "" then
        (if ok 0 then
          (if it.platforms.contains Platform.bale = true ∧ s.baleBotToken ≠ "" then
            (if ok 1 then
              (Status.completed,
               [Ev000.call Platform.telegram (Call000.message s.telegramChatId it.title),
                Ev000.call Platform.bale (Call000.message s.baleChatId it.title)])
             else
              (Status.failed,
               [Ev000.call Platform.telegram (Call000.message s.telegramChatId it.title),
                Ev000.call Platform.bale (Call000.message s.baleChatId it.title)]))
           else
            (Status.completed,
             [Ev000.call Platform.telegram (Call000.message s.telegramChatId it.title)]))
         else
          (Status.failed,
           [Ev000.call Platform.telegram (Call000.message s.telegramChatId it.title)]))
       else
        (if it.platforms.contains Platform.bale = true ∧ s.baleBotToken ≠ "" then
          (if ok 0 then
            (Status.completed,
             [Ev000.call Platform.bale (Call000.message s.baleChatId it.title)])
           else
            (Status.failed,
             [Ev000.call Platform.bale (Call000.message s.baleChatId it.title)]))
         else (Status.completed, []))) := by
  have hch : mediaChunks000 it.mediaUrls = [] := by
    rw [hm]; exact mediaChunks000_nil
  by_cases h1 : Platform.telegram ∈ it.platforms ∧ ¬s.telegramBotToken = ""
  · by_cases hok0 : ok 0 = true
    · by_cases h2 : Platform.bale ∈ it.platforms ∧ ¬s.baleBotToken = ""
      · by_cases hok1 : ok 1 = true
        · simp [deliver000, hch, platformRun000_empty, h1.1, h1.2, h2.1, h2.2, hok0, hok1]
        · simp [deliver000, hch, platformRun000_empty, h1.1, h1.2, h2.1, h2.2, hok0, hok1]
      · simp [deliver000, hch, platformRun000_empty, h1.1, h1.2, h2, hok0]
    · simp [deliver000, hch, platformRun000_empty, h1.1, h1.2, hok0]
  · by_cases h2 : Platform.bale ∈ it.platforms ∧ ¬s.baleBotToken = ""
    · by_cases hok0 : ok 0 = true
      · simp [deliver000, hch, platformRun000_empty, h1, h2.1, h2.2, hok0]
      · simp [deliver000, hch, platformRun000_empty, h1, h2.1, h2.2, hok0]
    · simp [deliver000, hch, platformRun000_empty, h1, h2]

/-- Claim C3: for an item without media, the processor issues exactly one
text-send (`sendMessage`) call per enabled target (platform listed on the
item with a configured credential), carrying the caption (the item title)
as body and that target's chat address, with no chunk delay anywhere; a
failure of any of those calls — the call of any enabled target, also after
earlier targets succeeded — fails the item. -/
theorem c3_text_only :
    ∀ (ok : Nat → Bool) (s : Settings000) (it : Item000),
      it.mediaUrls = [] →
      (∀ ms, Ev000.wait ms ∉ (deliver000 ok s it).2) ∧
      (∀ p c, Ev000.call p c ∈ (deliver000 ok s it).2 →
        c = Call000.message (chatFor000 s p) it.title) ∧
      ((∀ n, ok n = true) →
        (deliver000 ok s it).2 =
          (enabledPlatforms000 s it).map
            (fun p => Ev000.call p (Call000.message (chatFor000 s p) it.title)) ∧
        (deliver000 ok s it).1 = Status.completed) ∧
      (∀ k, k < (enabledPlatforms000 s it).length →
        (∀ j, j < k → ok j = true) → ok k = false →
        (deliver000 ok s it).1 = Status.failed) := by
  intro ok s it hm
  refine ⟨?_, ?_, ?_, ?_⟩
  · intro ms hw
    rw [deliver000_empty_media ok s it hm] at hw
    split_ifs at hw <;> simp at hw
  · intro p c hc
    rw [deliver000_empty_media ok s it hm] at hc
    split_ifs at hc <;>
      simp only [List.mem_cons, List.mem_singleton, List.not_mem_nil, or_false] at hc
    all_goals
      first
        | (rcases hc with hc | hc <;> (injection hc with h1 h2; subst h1; subst h2; rfl))
        | (injection hc with h1 h2; subst h1; subst h2; rfl)
  · intro hok
    rw [deliver000_empty_media ok s it hm]
    by_cases h1 : Platform.telegram ∈ it.platforms ∧ ¬s.telegramBotToken = ""
    · by_cases h2 : Platform.bale ∈ it.platforms ∧ ¬s.baleBotToken = ""
      · constructor <;>
          simp [enabledPlatforms000, tokenFor000, chatFor000, h1, h2, h1.1, h1.2,
            h2.1, h2.2, hok 0, hok 1]
      · constructor <;>
          simp [enabledPlatforms000, tokenFor000, chatFor000, h1, h2, h1.1, h1.2,
            hok 0]
    · by_cases h2 : Platform.bale ∈ it.platforms ∧ ¬s.baleBotToken = ""
      · constructor <;>
          simp [enabledPlatforms000, tokenFor000, chatFor000, h1, h2, h2.1, h2.2,
            hok 0]
      · constructor <;>
          simp [enabledPlatforms000, tokenFor000, chatFor000, h1, h2]
  · intro k hk hprev hfail
    rw [deliver000_empty_media ok s it hm]
    by_cases h1 : Platform.telegram ∈ it.platforms ∧ ¬s.telegramBotToken = ""
    · by_cases h2 : Platform.bale ∈ it.platforms ∧ ¬s.baleBotToken = ""
      · have hE : (enabledPlatforms000 s it).length = 2 := by
          simp [enabledPlatforms000, tokenFor000, h1.1, h1.2, h2.1, h2.2]
        rw [hE] at hk
        rcases k with _ | _ | k
        · simp [h1.1, h1.2, hfail]
        · have h0 : ok 0 = true := hprev 0 (by omega)
          simp [h1.1, h1.2, h2.1, h2.2, h0, hfail]
        · omega
      · have hE : (enabledPlatforms000 s it).length = 1 := by
          simp [enabledPlatforms000, tokenFor000, h1.1, h1.2, h2]
        rw [hE] at hk
        rcases k with _ | k
        · simp [h1.1, h1.2, hfail]
        · omega
    · by_cases h2 : Platform.bale ∈ it.platforms ∧ ¬s.baleBotToken = ""
      · have hE : (enabledPlatforms000 s it).length = 1 := by
          simp [enabledPlatforms000, tokenFor000, h1, h2.1, h2.2]
        rw [hE] at hk
        rcases k with _ | k
        · simp [h1, h2.1, h2.2, hfail]
        · omega
      · have hE : (enabledPlatforms000 s it).length = 0 := by
          simp [enabledPlatforms000, tokenFor000, h1, h2]
        rw [hE] at hk
        omega

def exS000 : Settings000 :=
  { sleepMode := false, telegramBotToken := "T", telegramChatId := "C",
    baleBotToken := "", baleChatId := "", corsProxy := "" }

def exItem000Text : Item000 :=
  { id := "x", title := "hi", source := "s", addedAt := "", status := Status.processing,
    mediaUrls := [], platforms := [Platform.telegram], retryCount := 0 }

/-- Settings with both global tokens configured, for the two-target
witness runs. -/
def exS000Both : Settings000 :=
  { sleepMode := false, telegramBotToken := "T", telegramChatId := "C",
    baleBotToken := "B", baleChatId := "D", corsProxy := "" }

/-- Item without media listing both platforms, so that two text-send
targets are enabled. -/
def exItem000Both : Item000 :=
  { id := "x2", title := "hi", source := "s", addedAt := "", status := Status.processing,
    mediaUrls := [], platforms := [Platform.telegram, Platform.bale], retryCount := 0 }

/-- Oracle of the failing witness run: the first request succeeds, every
later one fails. -/
def okFirstOnly : Nat → Bool := fun n => decide (n = 0)

/-- Witness for C3, covering both oracles: on an all-success run of a
two-target item the trace is exactly one text-send per enabled target and
the item completes; and on a run where the first target's call succeeded
and the second target's call fails, the item ends failed. -/
theorem c3_text_only_witness :
    (∀ ms, Ev000.wait ms ∉ (deliver000 (fun _ => true) exS000Both exItem000Both).2) ∧
    (∀ p c, Ev000.call p c ∈ (deliver000 (fun _ => true) exS000Both exItem000Both).2 →
      c = Call000.message (chatFor000 exS000Both p) exItem000Both.title) ∧
    ((deliver000 (fun _ => true) exS000Both exItem000Both).2 =
      (enabledPlatforms000 exS000Both exItem000Both).map
        (fun p => Ev000.call p
          (Call000.message (chatFor000 exS000Both p) exItem000Both.title)) ∧
     (deliver000 (fun _ => true) exS000Both exItem000Both).1 = Status.completed) ∧
    (deliver000 okFirstOnly exS000Both exItem000Both).1 = Status.failed :=
  ⟨(c3_text_only (fun _ => true) exS000Both exItem000Both rfl).1,
   (c3_text_only (fun _ => true) exS000Both exItem000Both rfl).2.1,
   (c3_text_only (fun _ => true) exS000Both exItem000Both rfl).2.2.1
     (fun _ => rfl),
   (c3_text_only okFirstOnly exS000Both exItem000Both rfl).2.2.2 1
     (by decide) (by decide) (by decide)⟩

theorem resolveIds_mem (ids : List String) (cs : List Channel) (t : QueueTarget) :
    t ∈ resolveIds ids cs ↔
      ∃ cid ∈ ids, ∃ c, cs.find? (fun ch => ch.id = cid) = some c ∧
        snapshotTarget c = t := by
  simp [resolveIds, List.mem_filterMap, Option.map_eq_some']

theorem resolveIds_length (ids : List String) (cs : List Channel) :
    (resolveIds ids cs).length =
      (ids.filter (fun cid => (cs.find? (fun ch => ch.id = cid)).isSome)).length := by
  induction ids with
  | nil => rfl
  | cons cid rest ih =>
    simp only [resolveIds, List.filterMap_cons] at ih ⊢
    cases h : cs.find? (fun ch => ch.id = cid) with
    | none => simp [h, List.filter_cons, ih]
    | some c => simp [h, List.filter_cons, ih]

/-- Claim C7: the target resolver selects `routing.images` for image kind
and `routing.videos` for video kind, falling back to `routing.general`
when the selected list is empty or the kind is text; ids without a
matching live channel contribute nothing (and no error value exists —
resolution is total); each surviving channel yields exactly one target
snapshotting its platform, chat address and credential; and a feed with
empty `routing.images` and `routing.general = [c1]` resolves an
image-kind item to exactly the one target snapshotted from `c1`. -/
theorem c7_resolver :
    (∀ (r : FeedRouting) (cs : List Channel),
      (r.images ≠ [] → resolveTargets ContentKind.image r cs = resolveIds r.images cs) ∧
      (r.images = [] → resolveTargets ContentKind.image r cs = resolveIds r.general cs) ∧
      (r.videos ≠ [] → resolveTargets ContentKind.video r cs = resolveIds r.videos cs) ∧
      (r.videos = [] → resolveTargets ContentKind.video r cs = resolveIds r.general cs) ∧
      resolveTargets ContentKind.text r cs = resolveIds r.general cs) ∧
    (∀ (ids : List String) (cs : List Channel) (t : QueueTarget),
      t ∈ resolveIds ids cs ↔
        ∃ cid ∈ ids, ∃ c, cs.find? (fun ch => ch.id = cid) = some c ∧
          snapshotTarget c = t) ∧
    (∀ (ids : List String) (cs : List Channel),
      (resolveIds ids cs).length =
        (ids.filter (fun cid => (cs.find? (fun ch => ch.id = cid)).isSome)).length) ∧
    (∀ c : Channel,
      (snapshotTarget c).platform = c.platform ∧
      (snapshotTarget c).chatId = c.chatId ∧
      (snapshotTarget c).token = c.token) ∧
    (∀ (c1 : Channel) (vids : List String),
      resolveTargets ContentKind.image ⟨[c1.id], [], vids⟩ [c1] = [snapshotTarget c1]) := by
  refine ⟨?_, resolveIds_mem, resolveIds_length, ?_, ?_⟩
  · intro r cs
    refine ⟨?_, ?_, ?_, ?_, ?_⟩
    · intro h
      simp [resolveTargets, List.length_eq_zero, h]
    · intro h
      simp [resolveTargets, List.length_eq_zero, h]
    · intro h
      simp [resolveTargets, List.length_eq_zero, h]
    · intro h
      simp [resolveTargets, List.length_eq_zero, h]
    · simp [resolveTargets]
  · intro c
    exact ⟨rfl, rfl, rfl⟩
  · intro c1 vids
    have hfind : List.find? (fun ch => ch.id = c1.id) [c1] = some c1 := by
      simp [List.find?]
    simp [resolveTargets, resolveIds, hfind]

def exChannel1 : Channel :=
  { id := "c1", name := "chan", platform := Platform.telegram, chatId := "@one",
    token := none, captionTemplate := none }

/-- Witness for C7: the resolver facts instantiated on a concrete channel
and a routing table with empty image routing. -/
theorem c7_resolver_witness :
    resolveTargets ContentKind.image ⟨[exChannel1.id], [], []⟩ [exChannel1] =
      [snapshotTarget exChannel1] ∧
    resolveTargets ContentKind.image ⟨["g"], [], []⟩ [] =
      resolveIds ["g"] ([] : List Channel) ∧
    (resolveIds ["dangling"] [exChannel1]).length =
      (["dangling"].filter
        (fun cid => (([exChannel1] : List Channel).find?
          (fun ch => ch.id = cid)).isSome)).length :=
  ⟨c7_resolver.2.2.2.2 exChannel1 [],
   (c7_resolver.1 ⟨["g"], [], []⟩ []).2.1 rfl,
   c7_resolver.2.2.1 ["dangling"] [exChannel1]⟩

def exUrls11 : List String :=
  ["u0", "u1", "u2", "u3", "u4", "u5", "u6", "u7", "u8", "u9", "u10"]

def exItem11 : Item000 :=
  { id := "1", title := "hi", source := "s", addedAt := "", status := Status.processing,
    mediaUrls := exUrls11, platforms := [Platform.telegram], retryCount := 0 }

/-- Counterexample for C8: on a concrete 11-item media list the second
chunk (absolute position 1) has exactly one item, is sent as a single
`sendPhoto` call — and that call carries the caption (the item title)
even though the chunk is not at absolute position 0, refuting the claim
that the caption is attached only at position 0. -/
theorem c8_counterexample :
    (mediaChunks000 exUrls11).length = 2 ∧
    ((mediaChunks000 exUrls11).getD 1 []).length = 1 ∧
    (deliver000 (fun _ => true) exS000 exItem11).2.getD 2 (Ev000.wait 0) =
      Ev000.call Platform.telegram (Call000.photo "C" "u10" "hi") ∧
    ("hi" : String) ≠ "" := by
  decide

/-- Claim C8 amended: a one-item chunk is sent as a single `sendPhoto`
call and a longer chunk as `sendMediaGroup`; but the caption is attached
to every single-item chunk unconditionally, regardless of the chunk's
absolute position — not only at position 0. -/
theorem c8_single_send :
    (∀ (title chatId : String) (i : Nat) (chunk : List String),
      chunk.length = 1 →
      chunkCall000 title chatId i chunk =
        Call000.photo chatId (singleField000 (chunk.headD "")) title) ∧
    (∀ (title chatId : String) (i : Nat) (chunk : List String),
      1 < chunk.length →
      chunkCall000 title chatId i chunk =
        Call000.group chatId (entries000From title i 0 chunk)) ∧
    (∀ (ok : Nat → Bool) (s : Settings000) (it : Item000) (p : Platform)
      (cid mf cap : String),
      Ev000.call p (Call000.photo cid mf cap) ∈ (deliver000 ok s it).2 →
      cap = it.title) := by
  refine ⟨?_, ?_, ?_⟩
  · intro title chatId i chunk h
    unfold chunkCall000
    rw [if_pos h]
  · intro title chatId i chunk h
    unfold chunkCall000
    rw [if_neg (by omega)]
  · intro ok s it p cid mf cap hm
    exact deliver000_photo_caption ok s it p cid mf cap hm

/-- Witness for C8 amended: a concrete one-item chunk at position 1 yields
a captioned single send, a two-item chunk a group send, and the captioned
single send of the concrete 11-item run carries the item title. -/
theorem c8_single_send_witness :
    chunkCall000 "hi" "C" 1 ["u10"] =
      Call000.photo "C" (singleField000 (["u10"].headD "")) "hi" ∧
    chunkCall000 "hi" "C" 0 ["a", "b"] =
      Call000.group "C" (entries000From "hi" 0 0 ["a", "b"]) ∧
    ("hi" : String) = exItem11.title :=
  ⟨c8_single_send.1 "hi" "C" 1 ["u10"] (by decide),
   c8_single_send.2.1 "hi" "C" 0 ["a", "b"] (by decide),
   c8_single_send.2.2 (fun _ => true) exS000 exItem11 Platform.telegram "C" "u10" "hi"
     (by decide)⟩

def chNoTemplate : Channel :=
  { id := "c9", name := "n", platform := Platform.telegram, chatId := "@x",
    token := none, captionTemplate := none }

def exForm : NewChannelForm :=
  { name := "n", platform := Platform.telegram, chatId := "@x", token := none }

/-- Counterexample for C9: the default caption template in the code is the
literal `\x7b\x7btitle\x7d\x7d\n\n\x7b\x7blink\x7d\x7d`, not the literal
`\x7b\x7btitle\x7d\x7d`: the caption editor falls back to the former for a
channel storing no template, and `handleAdd` stores the former on every
newly added channel. -/
theorem c9_counterexample :
    editorTemplate chNoTemplate = "\x7b\x7btitle\x7d\x7d\n\n\x7b\x7blink\x7d\x7d" ∧
    editorTemplate chNoTemplate ≠ "\x7b\x7btitle\x7d\x7d" ∧
    (handleAdd [] exForm "1").map (fun c => c.captionTemplate) =
      [some "\x7b\x7btitle\x7d\x7d\n\n\x7b\x7blink\x7d\x7d"] := by
  refine ⟨by decide, by decide, by decide⟩

/-- Claim C9 amended: for every channel that stores no caption template
(absent or empty), the template used is the default, which is exactly the
literal `\x7b\x7btitle\x7d\x7d\n\n\x7b\x7blink\x7d\x7d`; and every newly
added channel is stored with that same default template. -/
theorem c9_default_template :
    (∀ ch : Channel, ch.captionTemplate = none ∨ ch.captionTemplate = some "" →
      editorTemplate ch = "\x7b\x7btitle\x7d\x7d\n\n\x7b\x7blink\x7d\x7d") ∧
    (∀ (channels : List Channel) (nc : NewChannelForm) (newId : String),
      nc.name ≠ "" → nc.chatId ≠ "" →
      handleAdd channels nc newId =
        channels ++
          [{ id := newId, name := nc.name, platform := nc.platform, chatId := nc.chatId,
             token := nc.token,
             captionTemplate := some "\x7b\x7btitle\x7d\x7d\n\n\x7b\x7blink\x7d\x7d" }]) := by
  constructor
  · intro ch h
    rcases h with h | h <;> simp [editorTemplate, jsOrStr, h]
  · intro channels nc newId h1 h2
    simp [handleAdd, h1, h2]

/-- Witness for C9 amended: the default-template facts instantiated on a
concrete template-less channel and a concrete add. -/
theorem c9_default_template_witness :
    editorTemplate chNoTemplate = "\x7b\x7btitle\x7d\x7d\n\n\x7b\x7blink\x7d\x7d" ∧
    handleAdd [] exForm "1" =
      [] ++
        [{ id := "1", name := exForm.name, platform := exForm.platform,
           chatId := exForm.chatId, token := exForm.token,
           captionTemplate := some "\x7b\x7btitle\x7d\x7d\n\n\x7b\x7blink\x7d\x7d" }] :=
  ⟨c9_default_template.1 chNoTemplate (Or.inl rfl),
   c9_default_template.2 [] exForm "1" (by decide) (by decide)⟩
